import Mathlib

set_option maxRecDepth 8192

/-!
Verification of the Ani3Lix HTTP server, a shallow embedding of
`src/bot/utilities/http_server.py`.

The Python module defines a class `HTTPServer` holding a route table and a
fixed list of anime updates, an async request handler `handle_request` that
reads one request, parses the request line, dispatches on the path, writes
one response and closes the connection, and a module-level coroutine
`run_server`.  Strings read from the socket are modelled as `RawInput`
(empty read / bytes that fail to decode / a decoded text), machine-level
I/O effects (what was written back, whether the connection was closed,
whether an exception escaped) as the record `HandleResult`, and the current
year (`datetime.now().year` in `render_template`) as an explicit parameter.
-/

namespace Ani3Lix

/-! ## Python string primitives, modelled on `List Char` -/

/-- The characters `str.splitlines` treats as line breaks. -/
def pyLineBreak (c : Char) : Bool :=
  c ∈ (['\n', '\r', '\x0b', '\x0c', '\x1c', '\x1d', '\x1e', '\x85', '\u2028', '\u2029'] : List Char)

/-- `request.splitlines()[0]` for a non-empty `request`: the characters up
to the first line break. -/
def firstLineChars (l : List Char) : List Char :=
  l.takeWhile (fun c => ! pyLineBreak c)

/-- Auxiliary for `str.split(sep)`: first piece and remaining pieces. -/
def pySplitAux (sep : Char) : List Char → List Char × List (List Char)
  | [] => ([], [])
  | c :: rest =>
    let r := pySplitAux sep rest
    if c = sep then ([], r.1 :: r.2) else (c :: r.1, r.2)

/-- Python `str.split(sep)` with an explicit one-character separator:
splits at every occurrence and keeps empty pieces. -/
def pySplitChar (sep : Char) (l : List Char) : List (List Char) :=
  (pySplitAux sep l).1 :: (pySplitAux sep l).2

/-- Python `str.split(sep, 1)`: the part before the first occurrence of
`sep`, and the part after it when `sep` occurs (`sep in s` is equivalent to
the second component being `some`). -/
def pySplit1 (sep : Char) : List Char → List Char × Option (List Char)
  | [] => ([], none)
  | c :: rest =>
    if c = sep then ([], some rest)
    else
      let r := pySplit1 sep rest
      (c :: r.1, r.2)

/-! ## Python dict, modelled as an insertion-ordered association list -/

/-- `d[k] = v` on a Python dict: updates the value in place when the key is
present, appends otherwise. -/
def dictSet (d : List (String × String)) (k v : String) : List (String × String) :=
  if d.any (fun p => p.1 == k) then d.map (fun p => if p.1 == k then (k, v) else p)
  else d ++ [(k, v)]

/-- `d.get(k)` on a Python dict. -/
def dictGet (d : List (String × String)) (k : String) : Option String :=
  (d.find? (fun p => p.1 == k)).map Prod.snd

/-! ## Data model of the `HTTPServer` class -/

/-- The `AnimeUpdate` class (lines 6-11 of the source). -/
structure AnimeUpdate where
  title : String
  episode : Nat
  date : String
  link : String
deriving DecidableEq

/-- Tags for the four bound handler methods registered in `self.routes`. -/
inductive Handler where
  | home
  | anime
  | about
  | favicon
deriving DecidableEq

/-- The state of an `HTTPServer` instance. -/
structure HTTPServer where
  host : String
  port : Nat
  routes : List (String × Handler)
  anime_updates : List AnimeUpdate
deriving DecidableEq

/-- The route table built in `HTTPServer.__init__`. -/
def initRoutes : List (String × Handler) :=
  [("/", .home), ("/anime", .anime), ("/about", .about), ("/favicon.ico", .favicon)]

/-- The sample anime updates built in `HTTPServer.__init__`. -/
def initUpdates : List AnimeUpdate :=
  [ ⟨"One Piece", 1114, "April 5, 2025", "https://myanimelist.net/anime/21/One_Piece"⟩,
    ⟨"Jujutsu Kaisen", 45, "April 4, 2025", "https://myanimelist.net/anime/40748/Jujutsu_Kaisen"⟩,
    ⟨"Demon Slayer", 32, "April 3, 2025", "https://myanimelist.net/anime/38000/Kimetsu_no_Yaiba"⟩,
    ⟨"My Hero Academia", 126, "April 2, 2025", "https://myanimelist.net/anime/31964/Boku_no_Hero_Academia"⟩,
    ⟨"Bleach: Thousand-Year Blood War", 18, "April 1, 2025", "https://myanimelist.net/anime/41467/Bleach__Sennen_Kessen-hen"⟩ ]

/-- `HTTPServer.__init__(host, port)`. -/
def HTTPServer.mkServer (host : String) (port : Nat) : HTTPServer :=
  ⟨host, port, initRoutes, initUpdates⟩

/-! ## Template string literals, transcribed from the source f-strings -/

def animeCardSeg0 : String := String.intercalate "\n" [
  "",
  "            <div class=\"anime-card\">",
  "                <div class=\"anime-info\">",
  "                    <h3>" ]

def animeCardSeg1 : String := String.intercalate "\n" [
  "</h3>",
  "                    <p>Episode " ]

def animeCardSeg2 : String :=
  " • "

def animeCardSeg3 : String := String.intercalate "\n" [
  "</p>",
  "                </div>",
  "                <a href=\"" ]

def animeCardSeg4 : String := String.intercalate "\n" [
  "\" target=\"_blank\" class=\"watch-btn\">Watch</a>",
  "            </div>",
  "            " ]

def homeContentSeg0 : String := String.intercalate "\n" [
  "",
  "            <header>",
  "                <div class=\"logo\">",
  "                    <h1>Ani3Lix</h1>",
  "                </div>",
  "                <nav>",
  "                    <a href=\"/\" class=\"active\">Home</a>",
  "                    <a href=\"/anime\">Anime List</a>",
  "                    <a href=\"/about\">About</a>",
  "                </nav>",
  "            </header>",
  "            ",
  "            <main>",
  "                <section class=\"hero\">",
  "                    <div class=\"hero-content\">",
  "                        <h2>Your Ultimate Anime Companion</h2>",
  "                        <p>Stay updated with the latest episodes, join discussions, and discover new series!</p>",
  "                    </div>",
  "                </section>",
  "                ",
  "                <section class=\"section\">",
  "                    <h2>🔴 Community Links</h2>",
  "                    <div class=\"links-container\">",
  "                        <a href=\"https://t.me/Anim3chat\" target=\"_blank\" class=\"community-link telegram\">",
  "                            <span class=\"icon\">💬</span>",
  "                            <span class=\"text\">Ani3Lix Chat</span>",
  "                        </a>",
  "                        <a href=\"https://t.me/Ani3lix_clan\" target=\"_blank\" class=\"community-link telegram\">",
  "                            <span class=\"icon\">👥</span>",
  "                            <span class=\"text\">Join My Telegram</span>",
  "                        </a>",
  "                        <a href=\"https://t.me/Ongoing_Anime_Episodes\" target=\"_blank\" class=\"community-link telegram\">",
  "                            <span class=\"icon\">📺</span>",
  "                            <span class=\"text\">Ongoing Anime Episodes</span>",
  "                        </a>",
  "                    </div>",
  "                </section>",
  "                ",
  "                <section class=\"section\">",
  "                    <h2>🔥 Latest Updates</h2>",
  "                    <div class=\"updates-container\">",
  "                        " ]

def homeContentSeg1 : String := String.intercalate "\n" [
  "",
  "                    </div>",
  "                </section>",
  "                ",
  "                <section class=\"section\">",
  "                    <h2>📊 Anime Trackers</h2>",
  "                    <div class=\"trackers-container\">",
  "                        <a href=\"https://myanimelist.net\" target=\"_blank\" class=\"tracker mal\">",
  "                            <span class=\"tracker-name\">MyAnimeList</span>",
  "                            <span class=\"tracker-desc\">Track your anime progress</span>",
  "                        </a>",
  "                        <a href=\"https://anilist.co\" target=\"_blank\" class=\"tracker anilist\">",
  "                            <span class=\"tracker-name\">AniList</span>",
  "                            <span class=\"tracker-desc\">Discover seasonal anime</span>",
  "                        </a>",
  "                    </div>",
  "                </section>",
  "            </main>",
  "        " ]

def animeContent : String := String.intercalate "\n" [
  "",
  "            <header>",
  "                <div class=\"logo\">",
  "                    <h1>Ani3Lix</h1>",
  "                </div>",
  "                <nav>",
  "                    <a href=\"/\">Home</a>",
  "                    <a href=\"/anime\" class=\"active\">Anime List</a>",
  "                    <a href=\"/about\">About</a>",
  "                </nav>",
  "            </header>",
  "            ",
  "            <main>",
  "                <section class=\"section\">",
  "                    <h2>Popular Anime</h2>",
  "                    <p>This page is under construction. Check back soon for a complete anime directory!</p>",
  "                    ",
  "                    <div class=\"coming-soon\">",
  "                        <img src=\"https://myanimelist.net/images/anime/1123/120922l.jpg\" alt=\"Coming Soon\">",
  "                        <h3>More Content Coming Soon</h3>",
  "                    </div>",
  "                </section>",
  "            </main>",
  "        " ]

def aboutContent : String := String.intercalate "\n" [
  "",
  "            <header>",
  "                <div class=\"logo\">",
  "                    <h1>Ani3Lix</h1>",
  "                </div>",
  "                <nav>",
  "                    <a href=\"/\">Home</a>",
  "                    <a href=\"/anime\">Anime List</a>",
  "                    <a href=\"/about\" class=\"active\">About</a>",
  "                </nav>",
  "            </header>",
  "            ",
  "            <main>",
  "                <section class=\"section about-section\">",
  "                    <h2>About Ani3Lix</h2>",
  "                    <p>Ani3Lix is a passion project created by anime enthusiasts for anime enthusiasts. Our mission is to build a community where fans can discover, discuss, and enjoy their favorite anime series.</p>",
  "                    ",
  "                    <h3>Our Story</h3>",
  "                    <p>Founded in 2025 by \"The Fool\", Ani3Lix started as a small Telegram channel and has grown into a hub for anime updates and discussions.</p>",
  "                    ",
  "                    <h3>Contact</h3>",
  "                    <p>Join our Telegram groups to connect with the community and the creators!</p>",
  "                    ",
  "                    <div class=\"contact-links\">",
  "                        <a href=\"https://t.me/Anim3chat\" target=\"_blank\">Telegram Chat</a>",
  "                        <a href=\"https://t.me/Ani3lix_clan\" target=\"_blank\">Join Our Community</a>",
  "                    </div>",
  "                </section>",
  "            </main>",
  "        " ]

def errorPageSeg0 : String := String.intercalate "\n" [
  "",
  "        <!DOCTYPE html>",
  "        <html lang=\"en\">",
  "        <head>",
  "            <meta charset=\"UTF-8\">",
  "            <meta name=\"viewport\" content=\"width=device-width, initial-scale=1.0\">",
  "            <title>Error " ]

def errorPageSeg1 : String := String.intercalate "\n" [
  " - Ani3Lix</title>",
  "            <style>",
  "                body \x7b",
  "                    font-family: \x27Segoe UI\x27, Tahoma, Geneva, Verdana, sans-serif;",
  "                    background-color: #f5f5f5;",
  "                    color: #333;",
  "                    display: flex;",
  "                    justify-content: center;",
  "                    align-items: center;",
  "                    height: 100vh;",
  "                    margin: 0;",
  "                \x7d",
  "                .error-container \x7b",
  "                    text-align: center;",
  "                    background-color: white;",
  "                    padding: 2rem;",
  "                    border-radius: 10px;",
  "                    box-shadow: 0 4px 8px rgba(0,0,0,0.1);",
  "                    max-width: 500px;",
  "                \x7d",
  "                h1 \x7b",
  "                    font-size: 3rem;",
  "                    margin-bottom: 0.5rem;",
  "                    color: #ff6b6b;",
  "                \x7d",
  "                p \x7b",
  "                    font-size: 1.2rem;",
  "                    margin-bottom: 2rem;",
  "                \x7d",
  "                a \x7b",
  "                    display: inline-block;",
  "                    padding: 0.8rem 1.5rem;",
  "                    background-color: #7159c1;",
  "                    color: white;",
  "                    text-decoration: none;",
  "                    border-radius: 5px;",
  "                    transition: background-color 0.3s;",
  "                \x7d",
  "                a:hover \x7b",
  "                    background-color: #5f46af;",
  "                \x7d",
  "            </style>",
  "        </head>",
  "        <body>",
  "            <div class=\"error-container\">",
  "                <h1>Error " ]

def errorPageSeg2 : String := String.intercalate "\n" [
  "</h1>",
  "                <p>" ]

def errorPageSeg3 : String := String.intercalate "\n" [
  "</p>",
  "                <a href=\"/\">Return to Home</a>",
  "            </div>",
  "        </body>",
  "        </html>",
  "        " ]

def templateSeg0 : String := String.intercalate "\n" [
  "",
  "        <!DOCTYPE html>",
  "        <html lang=\"en\">",
  "        <head>",
  "            <meta charset=\"UTF-8\">",
  "            <meta name=\"viewport\" content=\"width=device-width, initial-scale=1.0\">",
  "            <title>" ]

def templateSeg1 : String := String.intercalate "\n" [
  "</title>",
  "            <link rel=\"preconnect\" href=\"https://fonts.googleapis.com\">",
  "            <link rel=\"preconnect\" href=\"https://fonts.gstatic.com\" crossorigin>",
  "            <link href=\"https://fonts.googleapis.com/css2?family=Poppins:wght@400;500;600;700&display=swap\" rel=\"stylesheet\">",
  "            <style>",
  "                :root \x7b",
  "                    --primary: #7159c1;",
  "                    --primary-dark: #5f46af;",
  "                    --secondary: #ff6b6b;",
  "                    --text: #333;",
  "                    --text-light: #777;",
  "                    --bg: #f8f8f8;",
  "                    --bg-card: #fff;",
  "                    --border: #e0e0e0;",
  "                \x7d",
  "                ",
  "                * \x7b",
  "                    margin: 0;",
  "                    padding: 0;",
  "                    box-sizing: border-box;",
  "                \x7d",
  "                ",
  "                body \x7b",
  "                    font-family: \x27Poppins\x27, sans-serif;",
  "                    background-color: var(--bg);",
  "                    color: var(--text);",
  "                    line-height: 1.6;",
  "                \x7d",
  "                ",
  "                /* Header & Navigation */",
  "                header \x7b",
  "                    background-color: var(--bg-card);",
  "                    box-shadow: 0 2px 10px rgba(0,0,0,0.1);",
  "                    display: flex;",
  "                    justify-content: space-between;",
  "                    align-items: center;",
  "                    padding: 1rem 5%;",
  "                    position: sticky;",
  "                    top: 0;",
  "                    z-index: 100;",
  "                \x7d",
  "                ",
  "                .logo h1 \x7b",
  "                    color: var(--primary);",
  "                    font-size: 1.8rem;",
  "                    font-weight: 700;",
  "                \x7d",
  "                ",
  "                nav \x7b",
  "                    display: flex;",
  "                    gap: 1.5rem;",
  "                \x7d",
  "                ",
  "                nav a \x7b",
  "                    color: var(--text);",
  "                    text-decoration: none;",
  "                    font-weight: 500;",
  "                    padding: 0.5rem 1rem;",
  "                    border-radius: 5px;",
  "                    transition: all 0.3s;",
  "                \x7d",
  "                ",
  "                nav a:hover, nav a.active \x7b",
  "                    background-color: var(--primary);",
  "                    color: white;",
  "                \x7d",
  "                ",
  "                /* Main Content */",
  "                main \x7b",
  "                    max-width: 1200px;",
  "                    margin: 2rem auto;",
  "                    padding: 0 1rem;",
  "                \x7d",
  "                ",
  "                .section \x7b",
  "                    margin-bottom: 3rem;",
  "                \x7d",
  "                ",
  "                h2 \x7b",
  "                    font-size: 1.8rem;",
  "                    margin-bottom: 1.5rem;",
  "                    color: var(--primary-dark);",
  "                    position: relative;",
  "                    padding-bottom: 0.5rem;",
  "                \x7d",
  "                ",
  "                h2::after \x7b",
  "                    content: \x27\x27;",
  "                    position: absolute;",
  "                    bottom: 0;",
  "                    left: 0;",
  "                    width: 60px;",
  "                    height: 4px;",
  "                    background-color: var(--secondary);",
  "                    border-radius: 2px;",
  "                \x7d",
  "                ",
  "                /* Hero Section */",
  "                .hero \x7b",
  "                    background-image: linear-gradient(to right, rgba(113, 89, 193, 0.9), rgba(113, 89, 193, 0.7)),",
  "                                      url(\x27https://wallpaperaccess.com/full/4498209.jpg\x27);",
  "                    background-size: cover;",
  "                    background-position: center;",
  "                    color: white;",
  "                    border-radius: 15px;",
  "                    padding: 4rem 2rem;",
  "                    margin-bottom: 3rem;",
  "                    text-align: center;",
  "                \x7d",
  "                ",
  "                .hero h2 \x7b",
  "                    font-size: 2.5rem;",
  "                    margin-bottom: 1rem;",
  "                    color: white;",
  "                \x7d",
  "                ",
  "                .hero h2::after \x7b",
  "                    display: none;",
  "                \x7d",
  "                ",
  "                .hero p \x7b",
  "                    font-size: 1.2rem;",
  "                    max-width: 700px;",
  "                    margin: 0 auto;",
  "                \x7d",
  "                ",
  "                /* Links Section */",
  "                .links-container \x7b",
  "                    display: grid;",
  "                    grid-template-columns: repeat(auto-fit, minmax(300px, 1fr));",
  "                    gap: 1rem;",
  "                \x7d",
  "                ",
  "                .community-link \x7b",
  "                    display: flex;",
  "                    align-items: center;",
  "                    padding: 1.2rem;",
  "                    background-color: var(--bg-card);",
  "                    border-radius: 10px;",
  "                    text-decoration: none;",
  "                    color: var(--text);",
  "                    box-shadow: 0 2px 8px rgba(0,0,0,0.08);",
  "                    transition: transform 0.3s, box-shadow 0.3s;",
  "                \x7d",
  "                ",
  "                .community-link:hover \x7b",
  "                    transform: translateY(-5px);",
  "                    box-shadow: 0 5px 15px rgba(0,0,0,0.1);",
  "                \x7d",
  "                ",
  "                .community-link.telegram \x7b",
  "                    border-left: 4px solid #0088cc;",
  "                \x7d",
  "                ",
  "                .community-link .icon \x7b",
  "                    font-size: 1.5rem;",
  "                    margin-right: 1rem;",
  "                \x7d",
  "                ",
  "                .community-link .text \x7b",
  "                    font-weight: 500;",
  "                \x7d",
  "                ",
  "                /* Updates Section */",
  "                .updates-container \x7b",
  "                    display: grid;",
  "                    grid-template-columns: repeat(auto-fit, minmax(300px, 1fr));",
  "                    gap: 1.5rem;",
  "                \x7d",
  "                ",
  "                .anime-card \x7b",
  "                    background-color: var(--bg-card);",
  "                    border-radius: 10px;",
  "                    box-shadow: 0 2px 8px rgba(0,0,0,0.08);",
  "                    padding: 1.5rem;",
  "                    display: flex;",
  "                    justify-content: space-between;",
  "                    align-items: center;",
  "                \x7d",
  "                ",
  "                .anime-info h3 \x7b",
  "                    margin-bottom: 0.3rem;",
  "                    color: var(--text);",
  "                \x7d",
  "                ",
  "                .anime-info p \x7b",
  "                    color: var(--text-light);",
  "                    font-size: 0.9rem;",
  "                \x7d",
  "                ",
  "                .watch-btn \x7b",
  "                    padding: 0.5rem 1rem;",
  "                    background-color: var(--primary);",
  "                    color: white;",
  "                    border-radius: 5px;",
  "                    text-decoration: none;",
  "                    font-weight: 500;",
  "                    transition: background-color 0.3s;",
  "                \x7d",
  "                ",
  "                .watch-btn:hover \x7b",
  "                    background-color: var(--primary-dark);",
  "                \x7d",
  "                ",
  "                /* Trackers Section */",
  "                .trackers-container \x7b",
  "                    display: grid;",
  "                    grid-template-columns: repeat(auto-fit, minmax(250px, 1fr));",
  "                    gap: 1.5rem;",
  "                \x7d",
  "                ",
  "                .tracker \x7b",
  "                    background-color: var(--bg-card);",
  "                    border-radius: 10px;",
  "                    box-shadow: 0 2px 8px rgba(0,0,0,0.08);",
  "                    padding: 1.5rem;",
  "                    text-decoration: none;",
  "                    color: var(--text);",
  "                    transition: transform 0.3s, box-shadow 0.3s;",
  "                \x7d",
  "                ",
  "                .tracker:hover \x7b",
  "                    transform: translateY(-5px);",
  "                    box-shadow: 0 5px 15px rgba(0,0,0,0.1);",
  "                \x7d",
  "                ",
  "                .tracker-name \x7b",
  "                    display: block;",
  "                    font-size: 1.2rem;",
  "                    font-weight: 600;",
  "                    margin-bottom: 0.5rem;",
  "                \x7d",
  "                ",
  "                .tracker-desc \x7b",
  "                    display: block;",
  "                    font-size: 0.9rem;",
  "                    color: var(--text-light);",
  "                \x7d",
  "                ",
  "                .tracker.mal \x7b",
  "                    border-top: 4px solid #2e51a2;",
  "                \x7d",
  "                ",
  "                .tracker.anilist \x7b",
  "                    border-top: 4px solid #02a9ff;",
  "                \x7d",
  "                ",
  "                /* About Page */",
  "                .about-section \x7b",
  "                    background-color: var(--bg-card);",
  "                    border-radius: 15px;",
  "                    padding: 2rem;",
  "                    box-shadow: 0 2px 10px rgba(0,0,0,0.05);",
  "                \x7d",
  "                ",
  "                .about-section h3 \x7b",
  "                    margin: 1.5rem 0 0.5rem 0;",
  "                    color: var(--primary);",
  "                \x7d",
  "                ",
  "                .contact-links \x7b",
  "                    display: flex;",
  "                    gap: 1rem;",
  "                    margin-top: 1.5rem;",
  "                \x7d",
  "                ",
  "                .contact-links a \x7b",
  "                    padding: 0.8rem 1.5rem;",
  "                    background-color: var(--primary);",
  "                    color: white;",
  "                    text-decoration: none;",
  "                    border-radius: 5px;",
  "                    font-weight: 500;",
  "                    transition: background-color 0.3s;",
  "                \x7d",
  "                ",
  "                .contact-links a:hover \x7b",
  "                    background-color: var(--primary-dark);",
  "                \x7d",
  "                ",
  "                /* Coming Soon */",
  "                .coming-soon \x7b",
  "                    display: flex;",
  "                    flex-direction: column;",
  "                    align-items: center;",
  "                    margin-top: 3rem;",
  "                \x7d",
  "                ",
  "                .coming-soon img \x7b",
  "                    width: 200px;",
  "                    border-radius: 10px;",
  "                    margin-bottom: 1rem;",
  "                \x7d",
  "                ",
  "                /* Footer */",
  "                footer \x7b",
  "                    background-color: var(--primary-dark);",
  "                    color: white;",
  "                    text-align: center;",
  "                    padding: 2rem 0;",
  "                    margin-top: 4rem;",
  "                \x7d",
  "                ",
  "                .footer-content \x7b",
  "                    max-width: 1200px;",
  "                    margin: 0 auto;",
  "                    display: flex;",
  "                    justify-content: space-between;",
  "                    align-items: center;",
  "                    padding: 0 1rem;",
  "                \x7d",
  "                ",
  "                .footer-logo h2 \x7b",
  "                    color: white;",
  "                    margin-bottom: 0.5rem;",
  "                \x7d",
  "                ",
  "                .footer-logo h2::after \x7b",
  "                    display: none;",
  "                \x7d",
  "                ",
  "                .footer-links \x7b",
  "                    display: flex;",
  "                    gap: 1.5rem;",
  "                \x7d",
  "                ",
  "                .footer-links a \x7b",
  "                    color: rgba(255, 255, 255, 0.8);",
  "                    text-decoration: none;",
  "                    transition: color 0.3s;",
  "                \x7d",
  "                ",
  "                .footer-links a:hover \x7b",
  "                    color: white;",
  "                \x7d",
  "                ",
  "                .copyright \x7b",
  "                    margin-top: 1.5rem;",
  "                    font-size: 0.9rem;",
  "                    opacity: 0.7;",
  "                \x7d",
  "                ",
  "                /* Responsive Design */",
  "                @media (max-width: 768px) \x7b",
  "                    header \x7b",
  "                        flex-direction: column;",
  "                        padding: 1rem;",
  "                    \x7d",
  "                    ",
  "                    .logo \x7b",
  "                        margin-bottom: 1rem;",
  "                    \x7d",
  "                    ",
  "                    .footer-content \x7b",
  "                        flex-direction: column;",
  "                        text-align: center;",
  "                    \x7d",
  "                    ",
  "                    .footer-logo \x7b",
  "                        margin-bottom: 1.5rem;",
  "                    \x7d",
  "                    ",
  "                    .hero \x7b",
  "                        padding: 3rem 1rem;",
  "                    \x7d",
  "                    ",
  "                    .hero h2 \x7b",
  "                        font-size: 2rem;",
  "                    \x7d",
  "                \x7d",
  "                ",
  "                @media (max-width: 576px) \x7b",
  "                    nav \x7b",
  "                        flex-wrap: wrap;",
  "                        justify-content: center;",
  "                    \x7d",
  "                    ",
  "                    .footer-links \x7b",
  "                        flex-direction: column;",
  "                        gap: 0.8rem;",
  "                    \x7d",
  "                \x7d",
  "            </style>",
  "        </head>",
  "        <body>",
  "            " ]

def templateSeg2 : String := String.intercalate "\n" [
  "",
  "            ",
  "            <footer>",
  "                <div class=\"footer-content\">",
  "                    <div class=\"footer-logo\">",
  "                        <h2>Ani3Lix</h2>",
  "                        <p>Your hub for anime updates!</p>",
  "                    </div>",
  "                    <div class=\"footer-links\">",
  "                        <a href=\"/\">Home</a>",
  "                        <a href=\"/anime\">Anime List</a>",
  "                        <a href=\"/about\">About</a>",
  "                    </div>",
  "                </div>",
  "                <div class=\"copyright\">",
  "                    &copy; " ]

def templateSeg3 : String := String.intercalate "\n" [
  " Ani3Lix | Created by The Fool",
  "                </div>",
  "            </footer>",
  "            ",
  "            <script src=\"https://inapp.telega.io/sdk/v1/sdk.js\"></script>",
  "            <script>",
  "                const ads = window.TelegaIn?.AdsController?.create_miniapp ? ",
  "                    window.TelegaIn.AdsController.create_miniapp(\x7b token: \x27170a3bc1-4cb3-4c99-8a30-58c7c44117f0\x27 \x7d) : null;",
  "                ",
  "                if (ads) \x7b",
  "                    ads.ad_show(\x7b adBlockUuid: \x276b346b7a-ff49-43fb-8c23-cbb3e008f836\x27 \x7d);",
  "                \x7d",
  "                ",
  "                // Add a simple animation effect for links",
  "                document.querySelectorAll(\x27.community-link, .tracker\x27).forEach(element => \x7b",
  "                    element.addEventListener(\x27mouseenter\x27, () => \x7b",
  "                        element.style.transform = \x27translateY(-5px)\x27;",
  "                    \x7d);",
  "                    ",
  "                    element.addEventListener(\x27mouseleave\x27, () => \x7b",
  "                        element.style.transform = \x27translateY(0)\x27;",
  "                    \x7d);",
  "                \x7d);",
  "            </script>",
  "        </body>",
  "        </html>",
  "        " ]


/-! ## Response construction -/

/-- One anime card of the `updates_html` loop body in `handle_home`. -/
def animeCard (u : AnimeUpdate) : String :=
  animeCardSeg0 ++ u.title ++ animeCardSeg1 ++ Nat.repr u.episode ++ animeCardSeg2
    ++ u.date ++ animeCardSeg3 ++ u.link ++ animeCardSeg4

/-- The `updates_html` accumulation loop in `handle_home`. -/
def updatesHtml (l : List AnimeUpdate) : String :=
  l.foldl (fun acc u => acc ++ animeCard u) ""

/-- The HTML document part of `render_template` (everything after the
status line and headers), with the `title`, `content` and `current_year`
interpolations. -/
def renderBody (current_year : Nat) (title content : String) : String :=
  templateSeg0 ++ title ++ templateSeg1 ++ content ++ templateSeg2
    ++ Nat.repr current_year ++ templateSeg3

/-- `HTTPServer.render_template` (lines 292-727 of the source), with
`datetime.now().year` passed in as `current_year`. -/
def render_template (current_year : Nat) (title content : String) : String :=
  "HTTP/1.1 200 OK\r\nContent-Type: text/html\r\n\r\n" ++ renderBody current_year title content

/-- `HTTPServer.render_error_page` (lines 232-290). -/
def render_error_page (status_code : Nat) (message : String) : String :=
  errorPageSeg0 ++ Nat.repr status_code ++ errorPageSeg1 ++ Nat.repr status_code
    ++ errorPageSeg2 ++ message ++ errorPageSeg3

/-- The `status_messages` dict in `create_error_response`. -/
def status_messages : List (Nat × String) :=
  [(400, "Bad Request"), (404, "Not Found"), (405, "Method Not Allowed"),
   (500, "Internal Server Error")]

/-- `HTTPServer.create_error_response` (lines 221-230). -/
def create_error_response (status_code : Nat) (message : String) : String :=
  "HTTP/1.1 " ++ Nat.repr status_code ++ " "
    ++ ((status_messages.find? (fun p => p.1 == status_code)).map Prod.snd).getD "Unknown Error"
    ++ "\r\nContent-Type: text/html\r\n\r\n" ++ render_error_page status_code message

/-! ## Handlers -/

/-- `HTTPServer.handle_home` (lines 77-152). -/
def handle_home (st : HTTPServer) (current_year : Nat) (method : String)
    (_params : List (String × String)) : String :=
  if method ≠ "GET" then create_error_response 405 "Method Not Allowed"
  else render_template current_year "Ani3Lix - Your Anime Hub"
    (homeContentSeg0 ++ updatesHtml st.anime_updates ++ homeContentSeg1)

/-- `HTTPServer.handle_anime` (lines 154-181). -/
def handle_anime (current_year : Nat) (method : String)
    (_params : List (String × String)) : String :=
  if method ≠ "GET" then create_error_response 405 "Method Not Allowed"
  else render_template current_year "Anime List - Ani3Lix" animeContent

/-- `HTTPServer.handle_about` (lines 183-216). -/
def handle_about (current_year : Nat) (method : String)
    (_params : List (String × String)) : String :=
  if method ≠ "GET" then create_error_response 405 "Method Not Allowed"
  else render_template current_year "About - Ani3Lix" aboutContent

/-- `HTTPServer.handle_favicon` (lines 218-219): a 204 regardless of the
method and the parameters. -/
def handle_favicon (_method : String) (_params : List (String × String)) : String :=
  "HTTP/1.1 204 No Content\r\n\r\n"

/-- Dispatch on the bound method stored in the route table. -/
def dispatch (st : HTTPServer) (current_year : Nat) :
    Handler → String → List (String × String) → String
  | .home => handle_home st current_year
  | .anime => handle_anime current_year
  | .about => handle_about current_year
  | .favicon => handle_favicon

/-! ## Request handling -/

/-- One raw socket read, after `reader.read(1024)` and before `decode`:
the read may be empty (peer closed), may fail to decode, or yields a text. -/
inductive RawInput where
  | empty
  | undecodable
  | text (s : String)
deriving DecidableEq

/-- Observable outcome of one `handle_request` call: what was written back,
whether the connection was closed, whether an exception escaped. -/
structure HandleResult where
  written : Option String
  closed : Bool
  escaped : Bool
deriving DecidableEq

/-- `request.splitlines()[0].split(" ")` of `handle_request`. -/
def parseParts (s : String) : List (List Char) :=
  pySplitChar ' ' (firstLineChars s.data)

/-- The query-parameter loop of `handle_request` (lines 57-60): pieces
without `=` are skipped, the others are split at the first `=` and
assigned into the dict. -/
def paramStep (d : List (String × String)) (param : List Char) :
    List (String × String) :=
  match pySplit1 '=' param with
  | (_, none) => d
  | (k, some v) => dictSet d (String.mk k) (String.mk v)

/-- Decoding of a query string: split on `&` and fold the pieces into an
initially empty dict. -/
def parseQuery (query_string : List Char) : List (String × String) :=
  (pySplitChar '&' query_string).foldl paramStep []

/-- Lines 51-60 of `handle_request`: when the path contains `?`, split it
at the first `?` into the route path and the decoded query parameters. -/
def splitPathQuery (path : List Char) : List Char × List (String × String) :=
  match pySplit1 '?' path with
  | (p, none) => (p, [])
  | (p, some query_string) => (p, parseQuery query_string)

/-- Lines 62-67 of `handle_request`: look the route path up in
`self.routes` and call the handler, or build the 404 response. -/
def routeStep (st : HTTPServer) (current_year : Nat) (m pth : List Char) :
    HandleResult × HTTPServer :=
  match st.routes.find? (fun r => r.1 == String.mk (splitPathQuery pth).1) with
  | some r =>
    (⟨some (dispatch st current_year r.2 (String.mk m) (splitPathQuery pth).2), true, false⟩, st)
  | none => (⟨some (create_error_response 404 "Not Found"), true, false⟩, st)

/-- The body of the `try` block of `handle_request` for a decoded text
(lines 40-70), together with the `except` and `finally` clauses. -/
def handleText (st : HTTPServer) (current_year : Nat) (s : String) :
    HandleResult × HTTPServer :=
  if s = "" then
    -- request.splitlines()[0] raises IndexError, caught by the except clause
    (⟨none, true, false⟩, st)
  else
    match parseParts s with
    | m :: pth :: _ => routeStep st current_year m pth
    | _ => (⟨some (create_error_response 400 "Bad Request"), true, false⟩, st)

/-- `HTTPServer.handle_request` (lines 34-75): returns the observable
outcome and the server state after the call. -/
def handle_request (st : HTTPServer) (current_year : Nat) :
    RawInput → HandleResult × HTTPServer
  | .empty => (⟨none, true, false⟩, st)
  | .undecodable =>
    -- request_data.decode() raises UnicodeDecodeError, caught and logged
    (⟨none, true, false⟩, st)
  | .text s => handleText st current_year s

/-- A whole sequence of connections handled by one server instance. -/
def processAll (st : HTTPServer) (current_year : Nat) (inputs : List RawInput) : HTTPServer :=
  inputs.foldl (fun acc i => (handle_request acc current_year i).2) st

/-! ## The module-level `run_server` entry point -/

/-- The method names defined by the `HTTPServer` class. -/
def HTTPServerMethodNames : List String :=
  ["__init__", "handle_request", "handle_home", "handle_anime", "handle_about",
   "handle_favicon", "create_error_response", "render_error_page", "render_template"]

/-- How the `run_server` coroutine returns. -/
inductive RunOutcome where
  | loggedServerError (msg : String)
  | serving
deriving DecidableEq

/-- Observable outcome of the module-level `run_server`. -/
structure RunResult where
  outcome : RunOutcome
  handledConnections : List RawInput
deriving DecidableEq

/-- The module-level `run_server(host, port)` coroutine (lines 729-744): it
constructs the server, then evaluates `server.run_server()`.  Attribute
lookup of `"run_server"` on the instance falls back to the class, which
defines no such method, so the call raises `AttributeError`; the generic
`except Exception` clause catches it and logs a server error, and the
coroutine returns without listening or handling any connection. -/
def run_server (host : String) (port : Nat) : RunResult :=
  let _server := HTTPServer.mkServer host port
  if "run_server" ∈ HTTPServerMethodNames then
    ⟨.serving, []⟩
  else
    ⟨.loggedServerError "AttributeError", []⟩

/-! ## Lemmas about the split primitives -/

theorem takeWhile_eq_self {α : Type} (p : α → Bool) :
    ∀ l : List α, (∀ c ∈ l, p c = true) → l.takeWhile p = l
  | [], _ => rfl
  | c :: t, h => by
    have hc : p c = true := h c (List.mem_cons_self c t)
    have ht := takeWhile_eq_self p t (fun x hx => h x (List.mem_cons_of_mem c hx))
    simp [List.takeWhile_cons, hc, ht]

theorem firstLineChars_eq_self (l : List Char)
    (h : ∀ c ∈ l, pyLineBreak c = false) : firstLineChars l = l :=
  takeWhile_eq_self _ l (fun c hc => by simp [h c hc])

theorem pySplitAux_no_sep (sep : Char) :
    ∀ a : List Char, sep ∉ a → pySplitAux sep a = (a, [])
  | [], _ => rfl
  | c :: t, h => by
    have hc : ¬ c = sep := fun e => h (by simp [e])
    have ht := pySplitAux_no_sep sep t (fun hm => h (List.mem_cons_of_mem c hm))
    simp [pySplitAux, ht, hc]

theorem pySplitAux_append (sep : Char) :
    ∀ a b : List Char, sep ∉ a →
      pySplitAux sep (a ++ sep :: b) = (a, (pySplitAux sep b).1 :: (pySplitAux sep b).2)
  | [], b, _ => by simp [pySplitAux]
  | c :: t, b, h => by
    have hc : ¬ c = sep := fun e => h (by simp [e])
    have ht := pySplitAux_append sep t b (fun hm => h (List.mem_cons_of_mem c hm))
    simp [pySplitAux, ht, hc]

theorem pySplitChar_no_sep (sep : Char) (a : List Char) (h : sep ∉ a) :
    pySplitChar sep a = [a] := by
  simp [pySplitChar, pySplitAux_no_sep sep a h]

theorem pySplitChar_append (sep : Char) (a b : List Char) (h : sep ∉ a) :
    pySplitChar sep (a ++ sep :: b) = a :: pySplitChar sep b := by
  simp [pySplitChar, pySplitAux_append sep a b h]

theorem pySplit1_no_sep (sep : Char) :
    ∀ a : List Char, sep ∉ a → pySplit1 sep a = (a, none)
  | [], _ => rfl
  | c :: t, h => by
    have hc : ¬ c = sep := fun e => h (by simp [e])
    have ht := pySplit1_no_sep sep t (fun hm => h (List.mem_cons_of_mem c hm))
    simp [pySplit1, ht, hc]

theorem pySplit1_append (sep : Char) :
    ∀ a b : List Char, sep ∉ a → pySplit1 sep (a ++ sep :: b) = (a, some b)
  | [], b, _ => by simp [pySplit1]
  | c :: t, b, h => by
    have hc : ¬ c = sep := fun e => h (by simp [e])
    have ht := pySplit1_append sep t b (fun hm => h (List.mem_cons_of_mem c hm))
    simp [pySplit1, ht, hc]

/-! ## Lemmas about the dict model -/

theorem dictGet_nil (k : String) : dictGet [] k = none := rfl

theorem dictGet_dictSet_self (d : List (String × String)) (k v : String) :
    dictGet (dictSet d k v) k = some v := by
  unfold dictSet dictGet
  by_cases hany : d.any (fun p => p.1 == k)
  · rw [if_pos hany]
    have hcomp : ((fun p : String × String => p.1 == k) ∘ fun p => if p.1 == k then (k, v) else p)
        = fun p : String × String => p.1 == k := by
      funext q
      by_cases hq : q.1 == k
      · have hq1 : q.1 = k := eq_of_beq hq
        simp [hq1]
      · have hq1 : q.1 ≠ k := by simpa using hq
        simp [hq1]
    rw [List.find?_map, hcomp]
    have hsome : (d.find? (fun p => p.1 == k)).isSome := by
      rw [List.find?_isSome]
      exact List.any_eq_true.1 hany
    obtain ⟨q0, hf⟩ := Option.isSome_iff_exists.1 hsome
    have hp0 := List.find?_some hf
    have hp : q0.1 = k := eq_of_beq hp0
    simp [hf, hp]
  · rw [if_neg hany]
    rw [List.find?_append]
    have h1 : List.find? (fun p => p.1 == k) d = none :=
      List.find?_eq_none.2 fun x hx hpx => hany (List.any_eq_true.2 ⟨x, hx, hpx⟩)
    have h2 : List.find? (fun p => p.1 == k) [(k, v)] = some (k, v) := by
      simp [List.find?]
    rw [h1, h2]
    rfl

theorem dictGet_dictSet_ne (d : List (String × String)) (k kk v : String) (hne : kk ≠ k) :
    dictGet (dictSet d kk v) k = dictGet d k := by
  have hkk : (kk == k) = false := beq_eq_false_iff_ne.2 hne
  unfold dictSet dictGet
  by_cases hany : d.any (fun p => p.1 == kk)
  · rw [if_pos hany]
    have hcomp : ((fun p : String × String => p.1 == k) ∘ fun p => if p.1 == kk then (kk, v) else p)
        = fun p : String × String => p.1 == k := by
      funext q
      by_cases hq : q.1 == kk
      · have hq1 : q.1 = kk := eq_of_beq hq
        have hk2 : kk ≠ k := hne
        simp [hq1, hk2]
      · have hq1 : q.1 ≠ kk := by simpa using hq
        simp [hq1]
    rw [List.find?_map, hcomp]
    cases hf : d.find? (fun p => p.1 == k) with
    | none => simp
    | some q0 =>
      have hp0 := List.find?_some hf
      have hp : q0.1 = k := eq_of_beq hp0
      have hq0 : q0.1 ≠ kk := fun e => hne (e.symm.trans hp)
      simp [hq0]
  · rw [if_neg hany]
    rw [List.find?_append]
    have h2 : List.find? (fun p => p.1 == k) [(kk, v)] = none := by
      simp [List.find?, hkk]
    rw [h2, Option.or_none]

/-! ## Spec-side characterization of query decoding (for claim C9) -/

/-- Follows the spec text, not the source: the value an `&`-separated
parameter contributes for key `k` — `none` for a parameter without `=`
(ignored) or one whose key differs from `k`. -/
def specContrib (k : String) (param : List Char) : Option String :=
  match pySplit1 '=' param with
  | (_, none) => none
  | (kk, some v) => if String.mk kk = k then some (String.mk v) else none

/-- Follows the spec text, not the source: all values the query string
binds to key `k`, in order.  The spec says the mapping holds the last. -/
def specQueryValues (query_string : List Char) (k : String) : List String :=
  (pySplitChar '&' query_string).filterMap (specContrib k)

theorem paramStep_no_contrib (d : List (String × String)) (k : String) (param : List Char)
    (h : specContrib k param = none) : dictGet (paramStep d param) k = dictGet d k := by
  unfold specContrib at h
  unfold paramStep
  rcases h1 : pySplit1 '=' param with ⟨kk, _ | v⟩
  · rfl
  · rw [h1] at h
    have h2 : (if String.mk kk = k then some (String.mk v) else none) = none := h
    by_cases hk : String.mk kk = k
    · rw [if_pos hk] at h2
      exact Option.noConfusion h2
    · exact dictGet_dictSet_ne d k (String.mk kk) (String.mk v) hk

theorem paramStep_contrib (d : List (String × String)) (k : String) (param : List Char)
    (v : String) (h : specContrib k param = some v) :
    dictGet (paramStep d param) k = some v := by
  unfold specContrib at h
  unfold paramStep
  rcases h1 : pySplit1 '=' param with ⟨kk, _ | vv⟩
  · rw [h1] at h
    have h2 : (none : Option String) = some v := h
    exact Option.noConfusion h2
  · rw [h1] at h
    have h2 : (if String.mk kk = k then some (String.mk vv) else none) = some v := h
    by_cases hk : String.mk kk = k
    · rw [if_pos hk] at h2
      injection h2 with h3
      subst hk
      rw [← h3]
      exact dictGet_dictSet_self d (String.mk kk) (String.mk vv)
    · rw [if_neg hk] at h2
      exact Option.noConfusion h2

theorem foldl_paramStep_nil_vals (k : String) :
    ∀ (ps : List (List Char)) (d : List (String × String)),
      ps.filterMap (specContrib k) = [] →
      dictGet (ps.foldl paramStep d) k = dictGet d k
  | [], _, _ => rfl
  | p :: t, d, h => by
    rw [List.filterMap_cons] at h
    cases hc : specContrib k p with
    | some v => simp [hc] at h
    | none =>
      rw [hc] at h
      rw [List.foldl_cons]
      rw [foldl_paramStep_nil_vals k t (paramStep d p) h]
      exact paramStep_no_contrib d k p hc

theorem foldl_paramStep_last_val (k : String) :
    ∀ (ps : List (List Char)) (d : List (String × String)) (v : String),
      (ps.filterMap (specContrib k)).getLast? = some v →
      dictGet (ps.foldl paramStep d) k = some v
  | [], _, v, h => by simp at h
  | p :: t, d, v, h => by
    rw [List.foldl_cons]
    cases hl : (t.filterMap (specContrib k)).getLast? with
    | some w =>
      have hne2 : t.filterMap (specContrib k) ≠ [] := by
        intro he
        rw [he] at hl
        exact Option.noConfusion hl
      have hv : (List.filterMap (specContrib k) (p :: t)).getLast?
          = (t.filterMap (specContrib k)).getLast? := by
        rw [List.filterMap_cons]
        cases hc : specContrib k p with
        | none => rfl
        | some x =>
          show (x :: t.filterMap (specContrib k)).getLast?
            = (t.filterMap (specContrib k)).getLast?
          cases hft : t.filterMap (specContrib k) with
          | nil => exact absurd hft hne2
          | cons y l => exact List.getLast?_cons_cons
      rw [hv] at h
      exact foldl_paramStep_last_val k t (paramStep d p) v h
    | none =>
      have ht : t.filterMap (specContrib k) = [] := List.getLast?_eq_none_iff.1 hl
      rw [foldl_paramStep_nil_vals k t (paramStep d p) ht]
      rw [List.filterMap_cons] at h
      cases hc : specContrib k p with
      | none => rw [hc, ht] at h; exact Option.noConfusion h
      | some x =>
        rw [hc] at h
        have h2 : (x :: t.filterMap (specContrib k)).getLast? = some v := h
        rw [ht] at h2
        have h3 : x = v := by simpa using h2
        rw [← h3]
        exact paramStep_contrib d k p x hc

/-- The query mapping holds, for each key, exactly the last value the query
string binds to it (`none` when it binds none). -/
theorem dictGet_parseQuery (query_string : List Char) (k : String) :
    dictGet (parseQuery query_string) k = (specQueryValues query_string k).getLast? := by
  unfold parseQuery specQueryValues
  cases hl : ((pySplitChar '&' query_string).filterMap (specContrib k)).getLast? with
  | none =>
    rw [foldl_paramStep_nil_vals k (pySplitChar '&' query_string) []
      (List.getLast?_eq_none_iff.1 hl)]
    rfl
  | some v => exact foldl_paramStep_last_val k _ [] v hl

/-! ## Request-line parsing lemmas -/

theorem parse_request_line (m pth : List Char)
    (hm : ∀ c ∈ m, pyLineBreak c = false ∧ c ≠ ' ')
    (hp : ∀ c ∈ pth, pyLineBreak c = false ∧ c ≠ ' ') :
    parseParts (String.mk (m ++ ' ' :: (pth ++ ' ' :: "HTTP/1.1".data))) =
      [m, pth, "HTTP/1.1".data] := by
  have hver : ∀ c ∈ ("HTTP/1.1".data : List Char), pyLineBreak c = false ∧ c ≠ ' ' := by
    decide
  have hsp : pyLineBreak ' ' = false := by decide
  have hline : firstLineChars (m ++ ' ' :: (pth ++ ' ' :: "HTTP/1.1".data))
      = m ++ ' ' :: (pth ++ ' ' :: "HTTP/1.1".data) := by
    apply firstLineChars_eq_self
    intro c hc
    rcases List.mem_append.1 hc with h1 | h1
    · exact (hm c h1).1
    · rcases List.mem_cons.1 h1 with h2 | h2
      · rw [h2]
        exact hsp
      · rcases List.mem_append.1 h2 with h3 | h3
        · exact (hp c h3).1
        · rcases List.mem_cons.1 h3 with h4 | h4
          · rw [h4]
            exact hsp
          · exact (hver c h4).1
  have hms : ' ' ∉ m := fun hmem => (hm ' ' hmem).2 rfl
  have hps : ' ' ∉ pth := fun hmem => (hp ' ' hmem).2 rfl
  have hvs : ' ' ∉ ("HTTP/1.1".data : List Char) := by decide
  show pySplitChar ' ' (firstLineChars (m ++ ' ' :: (pth ++ ' ' :: "HTTP/1.1".data))) = _
  rw [hline, pySplitChar_append ' ' m _ hms, pySplitChar_append ' ' pth _ hps,
    pySplitChar_no_sep ' ' _ hvs]

theorem mk_middle_ne_empty (m : List Char) (c : Char) (l : List Char) :
    String.mk (m ++ c :: l) ≠ "" := by
  intro h
  have h2 := congrArg String.data h
  simp only [String.data] at h2
  exact absurd h2 (by simp)

/-! ## Reduction lemmas for `handleText` -/

theorem handleText_route (st : HTTPServer) (cy : Nat) (s : String) (m pth : List Char)
    (rest : List (List Char)) (hne : s ≠ "") (hparse : parseParts s = m :: pth :: rest) :
    handleText st cy s = routeStep st cy m pth := by
  unfold handleText
  rw [if_neg hne, hparse]

theorem routeStep_found (st : HTTPServer) (cy : Nat) (m pth : List Char)
    (r : String × Handler)
    (hfind : st.routes.find? (fun q => q.1 == String.mk (splitPathQuery pth).1) = some r) :
    routeStep st cy m pth
      = (⟨some (dispatch st cy r.2 (String.mk m) (splitPathQuery pth).2), true, false⟩, st) := by
  unfold routeStep
  rw [hfind]

theorem routeStep_miss (st : HTTPServer) (cy : Nat) (m pth : List Char)
    (hfind : st.routes.find? (fun q => q.1 == String.mk (splitPathQuery pth).1) = none) :
    routeStep st cy m pth = (⟨some (create_error_response 404 "Not Found"), true, false⟩, st) := by
  unfold routeStep
  rw [hfind]

theorem handleText_shape (st : HTTPServer) (cy : Nat) (s : String) :
    ∃ w, handleText st cy s = (⟨w, true, false⟩, st) := by
  unfold handleText
  split
  · exact ⟨none, rfl⟩
  · split
    · unfold routeStep
      split
      · exact ⟨_, rfl⟩
      · exact ⟨_, rfl⟩
    · exact ⟨_, rfl⟩

theorem handle_request_snd (st : HTTPServer) (cy : Nat) (i : RawInput) :
    (handle_request st cy i).2 = st := by
  cases i with
  | empty => rfl
  | undecodable => rfl
  | text s =>
    obtain ⟨w, hw⟩ := handleText_shape st cy s
    show (handleText st cy s).2 = st
    rw [hw]

theorem processAll_eq (cy : Nat) :
    ∀ (inputs : List RawInput) (st : HTTPServer), processAll st cy inputs = st
  | [], _ => rfl
  | i :: t, st => by
    unfold processAll
    rw [List.foldl_cons]
    show List.foldl (fun acc j => (handle_request acc cy j).2) ((handle_request st cy i).2) t = st
    rw [handle_request_snd st cy i]
    exact processAll_eq cy t st

/-! ## Claim theorems -/

theorem handle_request_text (st : HTTPServer) (cy : Nat) (s : String) :
    handle_request st cy (RawInput.text s) = handleText st cy s := rfl

/-- Claim C1: for every host and port, the module-level `run_server` entry
point never invokes `handle_request` on any connection: the `HTTPServer`
class defines no method named `run_server`, so the call
`server.run_server()` raises `AttributeError`, the generic except clause
catches it and logs it as a server error, and the coroutine returns
without the server ever listening or serving a request. -/
theorem C1_run_server_never_serves (host : String) (port : Nat) :
    run_server host port = ⟨RunOutcome.loggedServerError "AttributeError", []⟩ ∧
    "run_server" ∉ HTTPServerMethodNames :=
  ⟨rfl, by decide⟩

/-- Claim C2, counterexample: a POST to the registered path `/favicon.ico`
is answered with the fixed `204 No Content` response, which is not the 405
Method Not Allowed response the claim requires for every registered path. -/
theorem C2_counterexample_favicon_post :
    (handle_request (HTTPServer.mkServer "127.0.0.1" 8080) 2025
        (.text "POST /favicon.ico HTTP/1.1")).1.written
      = some "HTTP/1.1 204 No Content\r\n\r\n" ∧
    "HTTP/1.1 204 No Content\r\n\r\n" ≠ create_error_response 405 "Method Not Allowed" :=
  ⟨rfl, fun h => absurd (congrArg (fun t => t.data.take 12) h) (by decide)⟩

/-- Claim C2 (amended): for every request whose path exactly matches one of
the registered paths `/`, `/anime`, `/about` but whose method is not GET,
the router returns the 405 Method Not Allowed response; the remaining
registered path `/favicon.ico` instead returns `204 No Content` regardless
of the method. -/
theorem C2_wrong_method_405 (host : String) (port current_year : Nat)
    (method : List Char) (path : String)
    (hm : ∀ c ∈ method, pyLineBreak c = false ∧ c ≠ ' ')
    (hmeth : String.mk method ≠ "GET") :
    (path ∈ (["/", "/anime", "/about"] : List String) →
      (handle_request (HTTPServer.mkServer host port) current_year
          (.text (String.mk (method ++ ' ' :: (path.data ++ ' ' :: "HTTP/1.1".data))))).1.written
        = some (create_error_response 405 "Method Not Allowed")) ∧
    (handle_request (HTTPServer.mkServer host port) current_year
        (.text (String.mk (method ++ ' ' :: ("/favicon.ico".data ++ ' ' :: "HTTP/1.1".data))))).1.written
      = some "HTTP/1.1 204 No Content\r\n\r\n" := by
  constructor
  · intro hpath
    have hpath3 : path = "/" ∨ path = "/anime" ∨ path = "/about" := by simpa using hpath
    rcases hpath3 with h | h | h
    · subst h
      have hp : ∀ c ∈ (("/" : String).data : List Char), pyLineBreak c = false ∧ c ≠ ' ' := by
        decide
      have hparse := parse_request_line method ("/" : String).data hm hp
      have hne := mk_middle_ne_empty method ' ' (("/" : String).data ++ ' ' :: "HTTP/1.1".data)
      rw [handle_request_text,
        handleText_route _ _ _ method ("/" : String).data _ hne hparse,
        routeStep_found _ _ method ("/" : String).data ("/", Handler.home) (by rfl)]
      show some (handle_home (HTTPServer.mkServer host port) current_year (String.mk method) []) = _
      unfold handle_home
      rw [if_pos hmeth]
    · subst h
      have hp : ∀ c ∈ (("/anime" : String).data : List Char), pyLineBreak c = false ∧ c ≠ ' ' := by
        decide
      have hparse := parse_request_line method ("/anime" : String).data hm hp
      have hne := mk_middle_ne_empty method ' ' (("/anime" : String).data ++ ' ' :: "HTTP/1.1".data)
      rw [handle_request_text,
        handleText_route _ _ _ method ("/anime" : String).data _ hne hparse,
        routeStep_found _ _ method ("/anime" : String).data ("/anime", Handler.anime) (by rfl)]
      show some (handle_anime current_year (String.mk method) []) = _
      unfold handle_anime
      rw [if_pos hmeth]
    · subst h
      have hp : ∀ c ∈ (("/about" : String).data : List Char), pyLineBreak c = false ∧ c ≠ ' ' := by
        decide
      have hparse := parse_request_line method ("/about" : String).data hm hp
      have hne := mk_middle_ne_empty method ' ' (("/about" : String).data ++ ' ' :: "HTTP/1.1".data)
      rw [handle_request_text,
        handleText_route _ _ _ method ("/about" : String).data _ hne hparse,
        routeStep_found _ _ method ("/about" : String).data ("/about", Handler.about) (by rfl)]
      show some (handle_about current_year (String.mk method) []) = _
      unfold handle_about
      rw [if_pos hmeth]
  · have hp : ∀ c ∈ (("/favicon.ico" : String).data : List Char),
        pyLineBreak c = false ∧ c ≠ ' ' := by decide
    have hparse := parse_request_line method ("/favicon.ico" : String).data hm hp
    have hne := mk_middle_ne_empty method ' '
      (("/favicon.ico" : String).data ++ ' ' :: "HTTP/1.1".data)
    rw [handle_request_text,
      handleText_route _ _ _ method ("/favicon.ico" : String).data _ hne hparse,
      routeStep_found _ _ method ("/favicon.ico" : String).data
        ("/favicon.ico", Handler.favicon) (by rfl)]
    rfl

/-- Witness for claim C2 (amended), at method POST and paths `/` and
`/favicon.ico`. -/
theorem C2_wrong_method_405_witness :
    (handle_request (HTTPServer.mkServer "127.0.0.1" 8080) 2025
        (.text (String.mk ("POST".data ++ ' ' :: (("/" : String).data ++ ' ' :: "HTTP/1.1".data))))).1.written
      = some (create_error_response 405 "Method Not Allowed") ∧
    (handle_request (HTTPServer.mkServer "127.0.0.1" 8080) 2025
        (.text (String.mk ("POST".data ++ ' ' :: (("/favicon.ico" : String).data ++ ' ' :: "HTTP/1.1".data))))).1.written
      = some "HTTP/1.1 204 No Content\r\n\r\n" := by
  have h := C2_wrong_method_405 "127.0.0.1" 8080 2025 "POST".data "/" (by decide) (by decide)
  exact ⟨h.1 (by decide), h.2⟩

/-- Claim C3, counterexample: bytes that fail to decode raise an exception
inside `handle_request`; the except clause only logs it, so no 400 or 500
response is written back — the written output is `none`. -/
theorem C3_counterexample_undecodable :
    (handle_request (HTTPServer.mkServer "127.0.0.1" 8080) 2025 RawInput.undecodable).1.written
      = none := rfl

/-- Claim C3 (amended): for every raw input on which request handling
raises an exception, the exception is caught and logged and no response is
written back; no exception escapes the handler and the connection is
always closed.  In particular no 500 response is ever produced. -/
theorem C3_exceptions_logged_only (st : HTTPServer) (current_year : Nat) (input : RawInput) :
    (handle_request st current_year input).1.escaped = false ∧
    (handle_request st current_year input).1.closed = true ∧
    ((input = RawInput.undecodable ∨ input = RawInput.text "") →
      (handle_request st current_year input).1.written = none) := by
  cases input with
  | empty =>
    refine ⟨rfl, rfl, ?_⟩
    rintro (h | h) <;> exact RawInput.noConfusion h
  | undecodable => exact ⟨rfl, rfl, fun _ => rfl⟩
  | text s =>
    obtain ⟨w, hw⟩ := handleText_shape st current_year s
    have h1 : handle_request st current_year (RawInput.text s) = (⟨w, true, false⟩, st) := hw
    refine ⟨by rw [h1], by rw [h1], ?_⟩
    rintro (h | h)
    · exact RawInput.noConfusion h
    · injection h with h2
      subst h2
      rfl

/-- Witness for claim C3 (amended): at the undecodable input nothing is
written back. -/
theorem C3_exceptions_logged_only_witness :
    (handle_request (HTTPServer.mkServer "0.0.0.0" 80) 2024 RawInput.undecodable).1.written
      = none :=
  (C3_exceptions_logged_only (HTTPServer.mkServer "0.0.0.0" 80) 2024 RawInput.undecodable).2.2
    (Or.inl rfl)

/-- Claim C4, counterexample: `GET /api/links` is answered with the 404 Not
Found error response — `/api/links` is not in this variant's route table —
so no JSON body with key `links` is returned. -/
theorem C4_counterexample_api_links :
    (handle_request (HTTPServer.mkServer "127.0.0.1" 8080) 2025
        (.text "GET /api/links HTTP/1.1")).1.written
      = some (create_error_response 404 "Not Found") ∧
    (create_error_response 404 "Not Found").data.take 12 = ("HTTP/1.1 404" : String).data ∧
    ("/api/links" : String) ∉ initRoutes.map Prod.fst :=
  ⟨rfl, by decide, by decide⟩

/-- Claim C4 (amended): a GET request to the path `/api/links` returns the
404 Not Found response, since `/api/links` is not a registered route in
this variant. -/
theorem C4_api_links_404 (host : String) (port current_year : Nat) :
    (handle_request (HTTPServer.mkServer host port) current_year
        (.text "GET /api/links HTTP/1.1")).1.written
      = some (create_error_response 404 "Not Found") := rfl

/-- Claim C5: for every request whose request line is `GET / HTTP/1.1`, the
response starts with the status line `HTTP/1.1 200 OK` followed by the
`Content-Type: text/html` header. -/
theorem C5_get_root_200 (host : String) (port current_year : Nat) (s : String)
    (hline : firstLineChars s.data = ("GET / HTTP/1.1" : String).data) :
    ∃ rest, (handle_request (HTTPServer.mkServer host port) current_year (.text s)).1.written
      = some ("HTTP/1.1 200 OK\r\nContent-Type: text/html\r\n\r\n" ++ rest) := by
  have hne : s ≠ "" := by
    intro he
    rw [he] at hline
    exact absurd hline (by decide)
  have hparse : parseParts s = ["GET".data, ("/" : String).data, "HTTP/1.1".data] := by
    unfold parseParts
    rw [hline]
    rfl
  refine ⟨renderBody current_year "Ani3Lix - Your Anime Hub"
    (homeContentSeg0 ++ updatesHtml (HTTPServer.mkServer host port).anime_updates
      ++ homeContentSeg1), ?_⟩
  rw [handle_request_text,
    handleText_route _ _ _ "GET".data ("/" : String).data _ hne hparse,
    routeStep_found _ _ "GET".data ("/" : String).data ("/", Handler.home) (by rfl)]
  rfl

/-- Witness for claim C5, at the raw input `GET / HTTP/1.1`. -/
theorem C5_get_root_200_witness :
    ∃ rest, (handle_request (HTTPServer.mkServer "127.0.0.1" 8080) 2025
        (.text "GET / HTTP/1.1")).1.written
      = some ("HTTP/1.1 200 OK\r\nContent-Type: text/html\r\n\r\n" ++ rest) :=
  C5_get_root_200 "127.0.0.1" 8080 2025 "GET / HTTP/1.1" rfl

/-- Claim C6: for every well-formed request line whose route path (query
string stripped) is not a key of the registered route table, the response
is the 404 Not Found error response. -/
theorem C6_unregistered_404 (host : String) (port current_year : Nat) (s : String)
    (m pth : List Char) (rest : List (List Char))
    (hne : s ≠ "") (hparse : parseParts s = m :: pth :: rest)
    (hmiss : String.mk (splitPathQuery pth).1 ∉ initRoutes.map Prod.fst) :
    (handle_request (HTTPServer.mkServer host port) current_year (.text s)).1.written
      = some (create_error_response 404 "Not Found") := by
  have hfind : (HTTPServer.mkServer host port).routes.find?
      (fun q => q.1 == String.mk (splitPathQuery pth).1) = none := by
    rw [List.find?_eq_none]
    intro x hx hbeq
    exact hmiss (List.mem_map.2 ⟨x, hx, eq_of_beq hbeq⟩)
  rw [handle_request_text,
    handleText_route _ _ _ m pth rest hne hparse,
    routeStep_miss _ _ m pth hfind]

/-- Witness for claim C6, at the raw input `GET /nope HTTP/1.1`. -/
theorem C6_unregistered_404_witness :
    (handle_request (HTTPServer.mkServer "127.0.0.1" 8080) 2025
        (.text "GET /nope HTTP/1.1")).1.written
      = some (create_error_response 404 "Not Found") :=
  C6_unregistered_404 "127.0.0.1" 8080 2025 "GET /nope HTTP/1.1"
    "GET".data "/nope".data ["HTTP/1.1".data] (by decide) (by decide) (by decide)

/-- Claim C7: every non-empty decoded input whose first line has fewer than
two space-separated tokens gets the 400 Bad Request response, and no
exception escapes the handler. -/
theorem C7_short_request_line_400 (st : HTTPServer) (current_year : Nat) (s : String)
    (hne : s ≠ "") (hlen : (parseParts s).length < 2) :
    (handle_request st current_year (.text s)).1.written
        = some (create_error_response 400 "Bad Request") ∧
    (handle_request st current_year (.text s)).1.escaped = false := by
  have hshape : handleText st current_year s
      = (⟨some (create_error_response 400 "Bad Request"), true, false⟩, st) := by
    unfold handleText
    rw [if_neg hne]
    rcases hp : parseParts s with _ | ⟨a, _ | ⟨b, t⟩⟩
    · rfl
    · rfl
    · rw [hp] at hlen
      simp at hlen
      omega
  rw [handle_request_text, hshape]
  exact ⟨rfl, rfl⟩

/-- Witness for claim C7, at the raw input `GET`. -/
theorem C7_short_request_line_400_witness :
    (handle_request (HTTPServer.mkServer "127.0.0.1" 8080) 2025 (.text "GET")).1.written
        = some (create_error_response 400 "Bad Request") ∧
    (handle_request (HTTPServer.mkServer "127.0.0.1" 8080) 2025 (.text "GET")).1.escaped
        = false :=
  C7_short_request_line_400 (HTTPServer.mkServer "127.0.0.1" 8080) 2025 "GET"
    (by decide) (by decide)

/-- Claim C8: for the empty raw input (closed connection), request handling
writes no response, no exception escapes the handler, and the connection is
closed. -/
theorem C8_empty_input_silent (st : HTTPServer) (current_year : Nat) :
    (handle_request st current_year RawInput.empty).1.written = none ∧
    (handle_request st current_year RawInput.empty).1.escaped = false ∧
    (handle_request st current_year RawInput.empty).1.closed = true :=
  ⟨rfl, rfl, rfl⟩

/-- Claim C9: a path containing `?` is split at the first `?` into route
path and query string; the query string is split on `&` and each parameter
at the first `=`; parameters without `=` are ignored; and the resulting
mapping holds, for each key, the last value bound to it. -/
theorem C9_query_decoding (a b : List Char) (k : String) (h : '?' ∉ a) :
    splitPathQuery (a ++ '?' :: b) = (a, parseQuery b) ∧
    dictGet (parseQuery b) k = (specQueryValues b k).getLast? := by
  constructor
  · unfold splitPathQuery
    rw [pySplit1_append '?' a b h]
  · exact dictGet_parseQuery b k

/-- Witness for claim C9, at the path `/about?a=1&bad&a=2&c=x=y`. -/
theorem C9_query_decoding_witness :
    splitPathQuery (("/about" : String).data ++ '?' :: ("a=1&bad&a=2&c=x=y" : String).data)
        = (("/about" : String).data, parseQuery (("a=1&bad&a=2&c=x=y" : String).data)) ∧
    dictGet (parseQuery (("a=1&bad&a=2&c=x=y" : String).data)) "a"
        = (specQueryValues (("a=1&bad&a=2&c=x=y" : String).data) "a").getLast? :=
  C9_query_decoding ("/about" : String).data ("a=1&bad&a=2&c=x=y" : String).data "a" (by decide)

/-- Claim C10: over any sequence of raw inputs, request handling leaves the
route table and the anime-update fixtures exactly as built at
construction. -/
theorem C10_state_immutable (host : String) (port current_year : Nat)
    (inputs : List RawInput) :
    (processAll (HTTPServer.mkServer host port) current_year inputs).routes
        = (HTTPServer.mkServer host port).routes ∧
    (processAll (HTTPServer.mkServer host port) current_year inputs).anime_updates
        = (HTTPServer.mkServer host port).anime_updates := by
  rw [processAll_eq current_year inputs (HTTPServer.mkServer host port)]
  exact ⟨rfl, rfl⟩

end Ani3Lix
